import Mathlib

/-!
Shallow embedding of the SpendySense expense tracker (src/app.py) and proofs
about its core logic: daily/weekly/monthly aggregation, budget and savings
progress fractions, quick-add expense creation, recent-transaction listing,
categorization, and onboarding profile bounds.
-/

namespace SpendySense

/-- Calendar timestamp mirroring a Python datetime value: a calendar day number
and a time of day in seconds. The chronological order on these values agrees
with the lexicographic order on the ISO strings that datetime.isoformat
produces and datetime.fromisoformat parses. -/
structure Timestamp where
  day : Int
  tod : Nat
deriving DecidableEq, Repr

/-- Embedding of the Python datetime.date() truncation: the calendar-day
component of a timestamp. -/
def Timestamp.date (t : Timestamp) : Int := t.day

/-- Chronological comparison of timestamps as a Bool comparator. Python
compares the stored ISO strings; on values produced by datetime.isoformat the
string order is exactly this chronological order. -/
def Timestamp.leb (a b : Timestamp) : Bool :=
  decide (a.day < b.day) || (decide (a.day = b.day) && decide (a.tod ≤ b.tod))

/-- The fixed category enumeration used throughout the app. -/
inductive Category where
  | Groceries
  | FastFood
  | Transportation
  | Entertainment
  | Education
  | Clothes
  | Health
  | Other
deriving DecidableEq, Repr

/-- Decidable substring test on character lists: true when pat occurs as a
contiguous run inside the second list. -/
def listContains (pat : List Char) : List Char → Bool
  | [] => pat.isPrefixOf ([] : List Char)
  | c :: cs => pat.isPrefixOf (c :: cs) || listContains pat cs

/-- Decidable substring test on strings. -/
def strContains (s pat : String) : Bool :=
  listContains pat.toList s.toList

/-- Modelled from the spec: utils.categorization.ExpenseCategorizer.categorize_expense
is imported by src/app.py but its source is not part of the shown repository.
The spec prescribes a deterministic, total, case-insensitive keyword match of
the description against per-category keyword tables, with unmatched input
defaulting to Other; the amount is an optional secondary signal that this
model does not use. -/
def categorize_expense (description : String) (amount : Rat) : Category :=
  let d := description.toLower
  let hit := fun kws => List.any kws (fun kw => strContains d kw)
  if hit ["grocery", "groceries", "vegetable", "fruit", "milk"] then .Groceries
  else if hit ["pizza", "burger", "fries", "restaurant", "snack"] then .FastFood
  else if hit ["bus", "train", "uber", "taxi", "fuel", "petrol"] then .Transportation
  else if hit ["movie", "game", "netflix", "concert"] then .Entertainment
  else if hit ["book", "course", "tuition", "exam"] then .Education
  else if hit ["shirt", "jeans", "shoes", "dress"] then .Clothes
  else if hit ["medicine", "doctor", "gym", "pharmacy"] then .Health
  else .Other

/-- An expense record, the dictionary built in src/app.py lines 139-146. -/
structure Expense where
  id : Nat
  date : Timestamp
  description : String
  amount : Rat
  category : Category
  type : String
deriving DecidableEq, Repr

/-- The user profile, the dictionary built in src/app.py lines 67-76. -/
structure Profile where
  name : String
  daily_limit : Rat
  savings_goal_amount : Rat
  savings_goal_reason : String
  preferred_categories : List Category
  alert_threshold : Nat
  created_date : Timestamp
  total_saved : Rat
deriving DecidableEq, Repr

/-- Runtime error raised by Python arithmetic in the embedded fragment. The
spec error taxonomy calls this case DivisionUndefined. -/
inductive PyError where
  | ZeroDivisionError
deriving DecidableEq, Repr

/-- Embedding of Python division on numbers: raises ZeroDivisionError when the
divisor is zero, otherwise returns the exact quotient. -/
def pydiv (a b : Rat) : Except PyError Rat :=
  if b = 0 then .error .ZeroDivisionError else .ok (a / b)

/-- Embedding of src/app.py lines 90-91: the expenses whose date falls on the
current local calendar day. -/
def today_expenses (expenses : List Expense) (today : Int) : List Expense :=
  expenses.filter (fun exp => decide (exp.date.date = today))

/-- Embedding of src/app.py line 92: the amount spent today. -/
def today_spent (expenses : List Expense) (today : Int) : Rat :=
  ((today_expenses expenses today).map Expense.amount).sum

/-- Embedding of src/app.py line 94: remaining budget for the day. -/
def remaining (profile : Profile) (expenses : List Expense) (today : Int) : Rat :=
  profile.daily_limit - today_spent expenses today

/-- Embedding of src/app.py line 99: the daily progress fraction
min(today_spent / daily_limit, 1.0), where the division raises on a zero
daily limit. -/
def progress (profile : Profile) (expenses : List Expense) (today : Int) :
    Except PyError Rat :=
  match pydiv (today_spent expenses today) profile.daily_limit with
  | .error e => .error e
  | .ok q => .ok (min q 1)

/-- Embedding of src/app.py lines 112-114: the savings progress fraction
min(total_saved / savings_goal_amount, 1.0) shown in the sidebar, where the
division raises on a zero goal. -/
def savings_status (profile : Profile) : Except PyError Rat :=
  match pydiv profile.total_saved profile.savings_goal_amount with
  | .error e => .error e
  | .ok savings_progress => .ok (min savings_progress 1)

/-- Embedding of src/app.py lines 159-160: expenses within the last 7 days. -/
def weekly_expenses (expenses : List Expense) (today : Int) : List Expense :=
  expenses.filter (fun exp => decide (today - 7 ≤ exp.date.date))

/-- Embedding of src/app.py line 161. -/
def weekly_spent (expenses : List Expense) (today : Int) : Rat :=
  ((weekly_expenses expenses today).map Expense.amount).sum

/-- Embedding of src/app.py lines 165-166: expenses within the last 30 days. -/
def monthly_expenses (expenses : List Expense) (today : Int) : List Expense :=
  expenses.filter (fun exp => decide (today - 30 ≤ exp.date.date))

/-- Embedding of src/app.py line 167. -/
def monthly_spent (expenses : List Expense) (today : Int) : Rat :=
  ((monthly_expenses expenses today).map Expense.amount).sum

/-- Embedding of the record built in src/app.py lines 139-146 for a quick-add
submission: id is the current ledger length plus one. -/
def new_expense (expenses : List Expense) (now : Timestamp)
    (quick_description : String) (quick_amount : Rat) : Expense :=
  { id := expenses.length + 1
    date := now
    description := quick_description
    amount := quick_amount
    category := categorize_expense quick_description quick_amount
    type := "manual" }

/-- Embedding of src/app.py lines 134-147: the quick-add handler appends one
record when the description is non-empty (Python truthiness) and the amount is
positive, and otherwise leaves the ledger unchanged. -/
def quick_add (expenses : List Expense) (now : Timestamp)
    (quick_description : String) (quick_amount : Rat) : List Expense :=
  if quick_description ≠ "" ∧ 0 < quick_amount then
    expenses ++ [new_expense expenses now quick_description quick_amount]
  else
    expenses

/-- Embedding of the streamlit number_input widget used by the onboarding
form: the widget never returns a value outside [min_value, max_value], so the
returned value is the requested one clamped into the bounds. -/
def number_input (min_value max_value value : Rat) : Rat :=
  max min_value (min max_value value)

/-- Embedding of the streamlit slider widget: the returned value always lies
within [lo, hi]. -/
def slider (lo hi value : Nat) : Nat :=
  max lo (min hi value)

/-- Embedding of show_onboarding, src/app.py lines 49-76: the profile stored
in session state when the form is submitted. -/
def onboarding_profile (name : String) (daily_limit savings_goal_amount : Rat)
    (savings_goal_reason : String) (preferred_categories : List Category)
    (alert_threshold : Nat) (now : Timestamp) : Profile :=
  { name := name
    daily_limit := number_input 100 10000 daily_limit
    savings_goal_amount := number_input 1000 1000000 savings_goal_amount
    savings_goal_reason := savings_goal_reason
    preferred_categories := preferred_categories
    alert_threshold := slider 50 90 alert_threshold
    created_date := now
    total_saved := 0 }

/-- Embedding of src/app.py line 177 without the truncation: Python sorted
with reverse=True is the stable descending sort by the date key. -/
def sorted_by_date_desc (expenses : List Expense) : List Expense :=
  expenses.mergeSort (fun a b => Timestamp.leb b.date a.date)

/-- Embedding of src/app.py line 177: the five most recent transactions. -/
def recent_expenses (expenses : List Expense) : List Expense :=
  (sorted_by_date_desc expenses).take 5

/-- Ledger well-formedness: ids are exactly 1..length in order. This is the
invariant the quick-add id rule maintains starting from the empty ledger. -/
def WfLedger (expenses : List Expense) : Prop :=
  expenses.map Expense.id = List.range' 1 expenses.length

/-- A fixed sample timestamp. -/
def t0 : Timestamp := ⟨0, 0⟩

/-- A ledger whose single expense has id 2, as could arise from loading a
partially written external store. -/
def gapLedger : List Expense :=
  [{ id := 2, date := t0, description := "Coffee", amount := 5,
     category := Category.Other, type := "manual" }]

/-- A profile with a zero daily limit, outside the onboarding bounds. -/
def pZero : Profile :=
  { name := "Z", daily_limit := 0, savings_goal_amount := 1000,
    savings_goal_reason := "trip", preferred_categories := [],
    alert_threshold := 80, created_date := t0, total_saved := 0 }

/-- A profile with daily limit 500 and savings goal 10000. -/
def p500 : Profile :=
  { name := "A", daily_limit := 500, savings_goal_amount := 10000,
    savings_goal_reason := "laptop", preferred_categories := [],
    alert_threshold := 80, created_date := t0, total_saved := 0 }

/-- A profile that has saved 12000 toward a 10000 goal. -/
def pSave : Profile :=
  { name := "B", daily_limit := 500, savings_goal_amount := 10000,
    savings_goal_reason := "fund", preferred_categories := [],
    alert_threshold := 80, created_date := t0, total_saved := 12000 }

/-- An expense dated eight calendar days before day 0. -/
def e8 : Expense :=
  { id := 1, date := ⟨-8, 0⟩, description := "OldItem", amount := 40,
    category := Category.Other, type := "manual" }

/-- A one-element ledger holding only the eight-day-old expense. -/
def L8 : List Expense := [e8]

/-- Summing a mapped filter equals summing with the predicate zeroing out the
excluded elements. -/
theorem filtered_sum (f : Expense → Rat) (p : Expense → Bool) :
    ∀ l : List Expense,
      ((l.filter p).map f).sum = (l.map (fun e => if p e then f e else 0)).sum := by
  intro l
  induction l with
  | nil => rfl
  | cons e t ih =>
      by_cases h : p e <;> simp [List.filter_cons, h, ih]

/-- The chronological comparator is reflexive. -/
theorem Timestamp.leb_refl (a : Timestamp) : Timestamp.leb a a = true := by
  simp [Timestamp.leb]

/-- The chronological comparator is transitive. -/
theorem Timestamp.leb_trans (a b c : Timestamp) :
    Timestamp.leb a b = true → Timestamp.leb b c = true → Timestamp.leb a c = true := by
  simp only [Timestamp.leb, Bool.or_eq_true, Bool.and_eq_true, decide_eq_true_eq]
  omega

/-- The chronological comparator is total. -/
theorem Timestamp.leb_total (a b : Timestamp) :
    (Timestamp.leb a b || Timestamp.leb b a) = true := by
  simp only [Timestamp.leb, Bool.or_eq_true, Bool.and_eq_true, decide_eq_true_eq]
  omega

/-- On a nonzero daily limit the progress computation succeeds with the
clamped quotient. -/
theorem progress_eq_of_ne (profile : Profile) (expenses : List Expense)
    (today : Int) (h : profile.daily_limit ≠ 0) :
    progress profile expenses today
      = .ok (min (today_spent expenses today / profile.daily_limit) 1) := by
  simp [progress, pydiv, h]

/-- On a nonzero savings goal the savings computation succeeds with the
clamped quotient. -/
theorem savings_eq_of_ne (profile : Profile)
    (h : profile.savings_goal_amount ≠ 0) :
    savings_status profile
      = .ok (min (profile.total_saved / profile.savings_goal_amount) 1) := by
  simp [savings_status, pydiv, h]

/-- Claim C1: daily_status returns spent equal to the sum of amounts of
exactly the expenses whose date falls on the current local calendar day, and
remaining equal to daily_limit minus spent, with remaining not clamped: it is
negative exactly when spent exceeds daily_limit. -/
theorem daily_status_spec (profile : Profile) (expenses : List Expense) (today : Int) :
    (∀ e, e ∈ today_expenses expenses today ↔ e ∈ expenses ∧ e.date.date = today) ∧
    today_spent expenses today
      = (expenses.map (fun e => if e.date.date = today then e.amount else 0)).sum ∧
    remaining profile expenses today = profile.daily_limit - today_spent expenses today ∧
    (remaining profile expenses today < 0 ↔
      profile.daily_limit < today_spent expenses today) := by
  refine ⟨?_, ?_, rfl, ?_⟩
  · intro e
    simp [today_expenses, List.mem_filter]
  · simpa using filtered_sum Expense.amount (fun e => decide (e.date.date = today)) expenses
  · simp only [remaining]
    exact sub_neg

/-- Claim C3: the daily progress fraction computation fails with the
division-by-zero error exactly when daily_limit is zero, and otherwise
returns min(spent / daily_limit, 1). -/
theorem progress_div_guard (profile : Profile) (expenses : List Expense) (today : Int) :
    (profile.daily_limit = 0 →
      progress profile expenses today = .error PyError.ZeroDivisionError) ∧
    (profile.daily_limit ≠ 0 →
      progress profile expenses today
        = .ok (min (today_spent expenses today / profile.daily_limit) 1)) := by
  constructor <;> intro h <;> simp [progress, pydiv, h]

/-- Claim C3 witness: on a profile with zero daily limit the computation
returns the division error. -/
theorem progress_div_guard_witness :
    progress pZero [] 0 = .error PyError.ZeroDivisionError :=
  (progress_div_guard pZero [] 0).1 rfl

/-- Claim C4: an expense enters the weekly sum exactly when its calendar day
is on or after today minus 7 days; an expense dated 8 days ago is excluded;
the monthly sum uses the same rule with a 30 day boundary; and the weekly sum
adds the amounts of exactly the included expenses. -/
theorem week_month_window_spec (expenses : List Expense) (today : Int) (e : Expense) :
    (e ∈ weekly_expenses expenses today ↔ e ∈ expenses ∧ today - 7 ≤ e.date.date) ∧
    (e.date.date = today - 8 → e ∉ weekly_expenses expenses today) ∧
    (e ∈ monthly_expenses expenses today ↔ e ∈ expenses ∧ today - 30 ≤ e.date.date) ∧
    weekly_spent expenses today
      = (expenses.map (fun x => if today - 7 ≤ x.date.date then x.amount else 0)).sum ∧
    monthly_spent expenses today
      = (expenses.map (fun x => if today - 30 ≤ x.date.date then x.amount else 0)).sum := by
  refine ⟨?_, ?_, ?_, ?_, ?_⟩
  · simp [weekly_expenses, List.mem_filter]
  · intro hd hmem
    simp [weekly_expenses, List.mem_filter, hd] at hmem
    omega
  · simp [monthly_expenses, List.mem_filter]
  · simpa [weekly_spent, weekly_expenses] using
      filtered_sum Expense.amount (fun x => decide (today - 7 ≤ x.date.date)) expenses
  · simpa [monthly_spent, monthly_expenses] using
      filtered_sum Expense.amount (fun x => decide (today - 30 ≤ x.date.date)) expenses

/-- Claim C4 witness: the concrete expense dated day -8 is excluded from the
weekly window of day 0. -/
theorem week_month_window_spec_witness : e8 ∉ weekly_expenses L8 0 :=
  (week_month_window_spec L8 0 e8).2.1 (by decide)

/-- Claim C8: quick-add input with an empty description or a non-positive
amount is silently rejected and the ledger is unchanged; input with a
non-empty description and positive amount appends exactly one expense. -/
theorem quick_add_validation (expenses : List Expense) (now : Timestamp)
    (quick_description : String) (quick_amount : Rat) :
    (quick_description = "" ∨ quick_amount ≤ 0 →
      quick_add expenses now quick_description quick_amount = expenses) ∧
    (quick_description ≠ "" → 0 < quick_amount →
      quick_add expenses now quick_description quick_amount
        = expenses ++ [new_expense expenses now quick_description quick_amount] ∧
      (quick_add expenses now quick_description quick_amount).length
        = expenses.length + 1) := by
  constructor
  · intro h
    have : ¬ (quick_description ≠ "" ∧ 0 < quick_amount) := by
      rcases h with h | h
      · exact fun hc => hc.1 h
      · exact fun hc => absurd hc.2 (not_lt.mpr h)
    simp [quick_add, this]
  · intro hd ha
    have hcond : quick_description ≠ "" ∧ 0 < quick_amount := ⟨hd, ha⟩
    constructor
    · simp [quick_add, hcond]
    · simp [quick_add, hcond]

/-- Claim C8 witness: an empty description is rejected, and the concrete
valid input appends exactly one expense to the empty ledger. -/
theorem quick_add_validation_witness :
    quick_add [] t0 "" 5 = [] ∧ (quick_add [] t0 "Pizza" 250).length = 0 + 1 :=
  ⟨(quick_add_validation [] t0 "" 5).1 (Or.inl rfl),
   (List.length_nil ▸ ((quick_add_validation [] t0 "Pizza" 250).2 (by decide) (by norm_num)).2)⟩

/-- Claim C5: with a positive daily limit and positive expense amounts, the
daily progress fraction is returned successfully and lies in the closed
interval [0, 1], no matter how large spent is relative to the limit. -/
theorem progress_in_unit_interval (profile : Profile) (expenses : List Expense)
    (today : Int) (hlim : 0 < profile.daily_limit)
    (hpos : ∀ e ∈ expenses, 0 < e.amount) :
    ∃ q, progress profile expenses today = .ok q ∧ 0 ≤ q ∧ q ≤ 1 := by
  have hspent : 0 ≤ today_spent expenses today := by
    apply List.sum_nonneg
    intro x hx
    simp only [List.mem_map] at hx
    obtain ⟨e, he, rfl⟩ := hx
    have hmem : e ∈ expenses := (List.mem_filter.mp he).1
    exact le_of_lt (hpos e hmem)
  refine ⟨min (today_spent expenses today / profile.daily_limit) 1, ?_, ?_, min_le_right _ _⟩
  · simp [progress, pydiv, ne_of_gt hlim]
  · exact le_min (div_nonneg hspent (le_of_lt hlim)) zero_le_one

/-- Claim C5 witness: on the sample profile with limit 500 and the empty
ledger the progress fraction exists and lies in [0, 1]. -/
theorem progress_in_unit_interval_witness :
    ∃ q, progress p500 [] 0 = .ok q ∧ 0 ≤ q ∧ q ≤ 1 :=
  progress_in_unit_interval p500 [] 0 (by norm_num [p500]) (by simp)

/-- Claim C6: with a positive savings goal, savings_status returns
min(total_saved / savings_goal_amount, 1), so once saved reaches the goal the
fraction is exactly 1 rather than exceeding it. -/
theorem savings_status_clamped (profile : Profile)
    (hgoal : 0 < profile.savings_goal_amount) :
    savings_status profile
      = .ok (min (profile.total_saved / profile.savings_goal_amount) 1) ∧
    (profile.savings_goal_amount ≤ profile.total_saved →
      savings_status profile = .ok 1) := by
  have hne := ne_of_gt hgoal
  constructor
  · simp [savings_status, pydiv, hne]
  · intro hle
    have h1 : (1 : Rat) ≤ profile.total_saved / profile.savings_goal_amount :=
      (one_le_div hgoal).mpr hle
    simp [savings_status, pydiv, hne, min_eq_right h1]

/-- Claim C6 witness: the profile with goal 10000 and saved 12000 reports a
savings fraction of exactly 1, not 1.2. -/
theorem savings_status_clamped_witness : savings_status pSave = .ok 1 :=
  (savings_status_clamped pSave (by norm_num [pSave])).2 (by norm_num [pSave])

/-- Claim C9: the categorizer is total and returns exactly one value from the
fixed eight-element category enumeration, and it is deterministic: identical
description and amount pairs give the same category. -/
theorem categorize_total_det (description : String) (amount : Rat) :
    categorize_expense description amount ∈
      [Category.Groceries, Category.FastFood, Category.Transportation,
       Category.Entertainment, Category.Education, Category.Clothes,
       Category.Health, Category.Other] ∧
    (∀ d a, description = d → amount = a →
      categorize_expense description amount = categorize_expense d a) := by
  constructor
  · cases hc : categorize_expense description amount <;> simp
  · rintro d a rfl rfl
    rfl

/-- Claim C9 witness: the categorizer applied to the concrete pair Pizza and
250 lands in the enumeration and agrees with itself. -/
theorem categorize_total_det_witness :
    categorize_expense "Pizza" 250 ∈
      [Category.Groceries, Category.FastFood, Category.Transportation,
       Category.Entertainment, Category.Education, Category.Clothes,
       Category.Health, Category.Other] ∧
    categorize_expense "Pizza" 250 = categorize_expense "Pizza" 250 :=
  ⟨(categorize_total_det "Pizza" 250).1,
   (categorize_total_det "Pizza" 250).2 "Pizza" 250 rfl rfl⟩

/-- Claim C10: every profile created through the onboarding form satisfies
the documented bounds, starts with zero savings, and in consequence both
progress-fraction divisions succeed for it. -/
theorem onboarding_profile_safe (p : Profile) (name : String)
    (daily_limit savings_goal_amount : Rat) (savings_goal_reason : String)
    (preferred_categories : List Category) (alert_threshold : Nat)
    (now : Timestamp)
    (hp : p = onboarding_profile name daily_limit savings_goal_amount
      savings_goal_reason preferred_categories alert_threshold now) :
    100 ≤ p.daily_limit ∧ 1000 ≤ p.savings_goal_amount ∧
    50 ≤ p.alert_threshold ∧ p.alert_threshold ≤ 90 ∧
    p.total_saved = 0 ∧ 0 < p.daily_limit ∧ 0 < p.savings_goal_amount ∧
    (∀ expenses today, ∃ q, progress p expenses today = Except.ok q) ∧
    (∃ q, savings_status p = Except.ok q) := by
  subst hp
  simp only [onboarding_profile, number_input, slider]
  have hdl : (0 : Rat) < max 100 (min 10000 daily_limit) :=
    lt_of_lt_of_le (by norm_num) (le_max_left _ _)
  have hsg : (0 : Rat) < max 1000 (min 1000000 savings_goal_amount) :=
    lt_of_lt_of_le (by norm_num) (le_max_left _ _)
  refine ⟨le_max_left _ _, le_max_left _ _, le_max_left _ _,
    max_le (by norm_num) (min_le_left _ _), trivial, hdl, hsg, ?_, ?_⟩
  · intro expenses today
    exact ⟨_, progress_eq_of_ne _ expenses today (ne_of_gt hdl)⟩
  · exact ⟨_, savings_eq_of_ne _ (ne_of_gt hsg)⟩

/-- Claim C10 witness: the profile produced by a concrete onboarding
submission satisfies all the bounds and both fraction computations succeed. -/
theorem onboarding_profile_safe_witness :
    100 ≤ (onboarding_profile "S" 500 10000 "laptop" [] 80 t0).daily_limit ∧
    1000 ≤ (onboarding_profile "S" 500 10000 "laptop" [] 80 t0).savings_goal_amount ∧
    50 ≤ (onboarding_profile "S" 500 10000 "laptop" [] 80 t0).alert_threshold ∧
    (onboarding_profile "S" 500 10000 "laptop" [] 80 t0).alert_threshold ≤ 90 ∧
    (onboarding_profile "S" 500 10000 "laptop" [] 80 t0).total_saved = 0 ∧
    0 < (onboarding_profile "S" 500 10000 "laptop" [] 80 t0).daily_limit ∧
    0 < (onboarding_profile "S" 500 10000 "laptop" [] 80 t0).savings_goal_amount ∧
    (∀ expenses today, ∃ q,
      progress (onboarding_profile "S" 500 10000 "laptop" [] 80 t0) expenses today
        = Except.ok q) ∧
    (∃ q, savings_status (onboarding_profile "S" 500 10000 "laptop" [] 80 t0)
        = Except.ok q) :=
  onboarding_profile_safe (onboarding_profile "S" 500 10000 "laptop" [] 80 t0)
    "S" 500 10000 "laptop" [] 80 t0 rfl

/-- Claim C2 counterexample: on the ledger whose only expense carries id 2,
the quick-add id rule (count plus one) produces id 2 again, which already
occurs in the ledger and is not strictly greater than every present id. -/
theorem quick_add_id_collision :
    (new_expense gapLedger t0 "Tea" 3).id ∈ gapLedger.map Expense.id ∧
    ¬ (∀ e ∈ gapLedger, e.id < (new_expense gapLedger t0 "Tea" 3).id) := by
  constructor
  · simp [gapLedger, new_expense]
  · intro h
    have := h (gapLedger.get ⟨0, by simp [gapLedger]⟩) (by simp [gapLedger])
    simp [gapLedger, new_expense] at this

/-- Claim C2 amended: on a well-formed ledger, whose ids are exactly 1..count
as quick-add maintains from the empty ledger, a quick-add with valid input
appends exactly one expense whose id count plus one equals max id plus one, is
unique, and is strictly greater than every id present; well-formedness is
preserved. -/
theorem quick_add_fresh_id (expenses : List Expense) (now : Timestamp)
    (quick_description : String) (quick_amount : Rat)
    (hwf : WfLedger expenses) (hd : quick_description ≠ "")
    (ha : 0 < quick_amount) :
    (quick_add expenses now quick_description quick_amount).length
      = expenses.length + 1 ∧
    (new_expense expenses now quick_description quick_amount).id
      = expenses.length + 1 ∧
    (∀ e ∈ expenses,
      e.id < (new_expense expenses now quick_description quick_amount).id) ∧
    (new_expense expenses now quick_description quick_amount).id
      ∉ expenses.map Expense.id ∧
    WfLedger (quick_add expenses now quick_description quick_amount) := by
  have hcond : quick_description ≠ "" ∧ 0 < quick_amount := ⟨hd, ha⟩
  have happ : quick_add expenses now quick_description quick_amount
      = expenses ++ [new_expense expenses now quick_description quick_amount] := by
    simp [quick_add, hcond]
  have hni : (new_expense expenses now quick_description quick_amount).id
      = expenses.length + 1 := rfl
  refine ⟨?_, hni, ?_, ?_, ?_⟩
  · rw [happ]
    simp
  · intro e he
    rw [hni]
    have hmem : e.id ∈ expenses.map Expense.id := List.mem_map_of_mem Expense.id he
    rw [hwf] at hmem
    obtain ⟨i, hi, hei⟩ := List.mem_range'.mp hmem
    omega
  · intro hmem
    rw [hni, hwf] at hmem
    obtain ⟨i, hi, hei⟩ := List.mem_range'.mp hmem
    omega
  · rw [happ]
    show (expenses ++ [new_expense expenses now quick_description quick_amount]).map
        Expense.id
      = List.range' 1 (expenses ++
          [new_expense expenses now quick_description quick_amount]).length
    rw [List.map_append, hwf, List.length_append]
    simp [hni, List.range'_concat, Nat.add_comm]

/-- Claim C2 witness: quick-adding a pizza expense to the empty well-formed
ledger appends one expense with the fresh id 1 and keeps the ledger
well-formed. -/
theorem quick_add_fresh_id_witness :
    (quick_add [] t0 "Pizza" 250).length = List.length ([] : List Expense) + 1 ∧
    (new_expense [] t0 "Pizza" 250).id = List.length ([] : List Expense) + 1 ∧
    (∀ e ∈ ([] : List Expense), e.id < (new_expense [] t0 "Pizza" 250).id) ∧
    (new_expense [] t0 "Pizza" 250).id ∉ ([] : List Expense).map Expense.id ∧
    WfLedger (quick_add [] t0 "Pizza" 250) :=
  quick_add_fresh_id [] t0 "Pizza" 250 rfl (by decide) (by norm_num)

/-- Claim C7: the recent-transactions view shows the first five entries of a
list that is a permutation of the ledger, is ordered by date descending, and,
for each fixed date, lists the expenses of that date exactly in their original
insertion order (the sort is stable). -/
theorem recent_transactions_spec (expenses : List Expense) :
    recent_expenses expenses = (sorted_by_date_desc expenses).take 5 ∧
    (recent_expenses expenses).length = min 5 expenses.length ∧
    (sorted_by_date_desc expenses).Perm expenses ∧
    (sorted_by_date_desc expenses).Pairwise
      (fun a b => Timestamp.leb b.date a.date = true) ∧
    (∀ d : Timestamp,
      (sorted_by_date_desc expenses).filter (fun e => decide (e.date = d))
        = expenses.filter (fun e => decide (e.date = d))) := by
  have htrans : ∀ a b c : Expense, Timestamp.leb b.date a.date = true →
      Timestamp.leb c.date b.date = true → Timestamp.leb c.date a.date = true :=
    fun a b c hab hbc => Timestamp.leb_trans c.date b.date a.date hbc hab
  have htotal : ∀ a b : Expense,
      (Timestamp.leb b.date a.date || Timestamp.leb a.date b.date) = true :=
    fun a b => Timestamp.leb_total b.date a.date
  have hperm : (sorted_by_date_desc expenses).Perm expenses :=
    List.mergeSort_perm expenses _
  refine ⟨rfl, ?_, hperm, ?_, ?_⟩
  · simp [recent_expenses, sorted_by_date_desc]
  · exact List.sorted_mergeSort htrans htotal expenses
  · intro d
    have hpair : (expenses.filter (fun e => decide (e.date = d))).Pairwise
        (fun a b => Timestamp.leb b.date a.date = true) := by
      apply List.pairwise_of_reflexive_of_forall_ne
      · intro a
        exact Timestamp.leb_refl a.date
      · intro a ha b hb _
        have hda : a.date = d := by
          simpa using (List.mem_filter.mp ha).2
        have hdb : b.date = d := by
          simpa using (List.mem_filter.mp hb).2
        rw [hda, hdb]
        exact Timestamp.leb_refl d
    have hsub : List.Sublist (expenses.filter (fun e => decide (e.date = d)))
        (sorted_by_date_desc expenses) :=
      List.sublist_mergeSort htrans htotal hpair (List.filter_sublist expenses)
    have hself : (expenses.filter (fun e => decide (e.date = d))).filter
        (fun e => decide (e.date = d))
        = expenses.filter (fun e => decide (e.date = d)) := by
      apply List.filter_eq_self.mpr
      intro a ha
      exact (List.mem_filter.mp ha).2
    have hsub2 : List.Sublist (expenses.filter (fun e => decide (e.date = d)))
        ((sorted_by_date_desc expenses).filter (fun e => decide (e.date = d))) :=
      hself ▸ hsub.filter (fun e => decide (e.date = d))
    have hlen : (expenses.filter (fun e => decide (e.date = d))).length
        = ((sorted_by_date_desc expenses).filter
            (fun e => decide (e.date = d))).length :=
      (hperm.filter (fun e => decide (e.date = d))).length_eq.symm
    exact (hsub2.eq_of_length hlen).symm

end SpendySense
